import Mathlib

/-!
Shallow embedding of the client-side API access layer of the series-finder
repository (frontend/src/services/apiService.ts and frontend/src/hooks/useApi.ts),
together with theorems settling the frozen claims about it.

Modelling conventions:
- JavaScript exception values are modelled by the inductive `JsError`:
  the three custom classes ApiError / NetworkError / ValidationError, a plain
  `Error` instance (`genericError`), and any non-Error value such as a string
  (`nonErrorValue`).
- The transport (one `fetch` invocation plus the response object) is a function
  from the attempt index to a `FetchResult`: either a TypeError whose message
  mentions fetch (`netFail`), any other thrown error (`otherFail`), or a
  `Response`.  A `Response` carries `ok` (2xx), `status`, `statusText`, whether
  the content-type header includes application/json, the outcome of calling
  json() on a success body (`jsonParse`, `Except.error` = json() throws), and
  the best-effort parse of an error body (`errBody`, `none` = not JSON).
- Delays are recorded in milliseconds exactly as passed to `delay`
  (Math.pow(2, attempt) * 1000), so `2 ^ i * 1000` ms corresponds to the
  spec figure of 2 ^ i seconds.
- Promise resolution/rejection is `Except JsError (Option α)`: `Except.ok none`
  models resolving with null (empty body), `Except.error e` models rejection.
-/

/-- Outcome of one JS error-body parse: an object with optional `message` and
`error` string fields (apiService.ts lines 111-116). -/
structure ErrBody where
  messageField : Option String
  errorField : Option String
  deriving DecidableEq, Repr

/-- One HTTP response as observed by `ApiService.request`. -/
structure Response (α : Type) where
  ok : Bool
  status : Nat
  statusText : String
  hasJsonContentType : Bool
  jsonParse : Except String α
  errBody : Option ErrBody
  deriving Repr

/-- Result of one `fetch` invocation: a thrown TypeError mentioning fetch, any
other thrown Error (carrying its message), or a response object. -/
inductive FetchResult (α : Type) where
  | netFail : FetchResult α
  | otherFail (msg : String) : FetchResult α
  | resp (r : Response α) : FetchResult α
  deriving Repr

/-- JavaScript error values relevant to this layer: the three custom error
classes of apiService.ts, a plain Error, and any non-Error value (e.g. the
message string stored in the hook state). -/
inductive JsError where
  | apiError (status : Nat) (statusText : String) (message : String) (endpoint : String)
  | networkError (message : String) (endpoint : String)
  | validationError (message : String) (field : Option String)
  | genericError (message : String)
  | nonErrorValue (str : String)
  deriving DecidableEq, Repr

/-- The observable run of one `request` call: the settled promise, the number
of transport invocations, and the backoff delays (ms) in order. -/
structure RunResult (α : Type) where
  result : Except JsError (Option α)
  attempts : Nat
  delays : List Nat
  deriving Repr

/-- JS `a || b` on an optional string field: `none` (absent/undefined) and the
empty string are falsy. -/
def jsOrStr (v : Option String) (d : String) : String :=
  match v with
  | some s => if s = "" then d else s
  | none => d

namespace ApiService

/-- The error message derived for a non-success response
(apiService.ts lines 109-116): `errorData.message || errorData.error ||
"Request failed: {status} {statusText}"`, with the default kept when the body
is not JSON. -/
def deriveErrorMessage {α : Type} (r : Response α) : String :=
  let deflt := "Request failed: " ++ toString r.status ++ " " ++ r.statusText
  match r.errBody with
  | some b => jsOrStr b.messageField (jsOrStr b.errorField deflt)
  | none => deflt

/-- The retry loop body of `ApiService.request` (apiService.ts lines 87-174).
`attempt` is the loop index, `fuel` the number of remaining iterations
(`retries + 1 - attempt` at every reachable call); the `fuel = 0` case is the
unreachable fall-through past the `for` loop. -/
def requestLoop {α : Type} (t : Nat → FetchResult α) (endpoint : String)
    (retries : Nat) : Nat → Nat → RunResult α
  | _, 0 => ⟨Except.ok none, 0, []⟩
  | attempt, fuel + 1 =>
    match t attempt with
    | FetchResult.netFail =>
      if attempt < retries then
        let rr := requestLoop t endpoint retries (attempt + 1) fuel
        ⟨rr.result, rr.attempts + 1, (2 ^ attempt * 1000) :: rr.delays⟩
      else
        ⟨Except.error (JsError.networkError
          ("Network connection failed. Please check your internet connection.") endpoint),
         1, []⟩
    | FetchResult.otherFail msg =>
      ⟨Except.error (JsError.genericError ("Unexpected error: " ++ msg)), 1, []⟩
    | FetchResult.resp r =>
      if r.ok then
        if r.hasJsonContentType then
          match r.jsonParse with
          | Except.ok v => ⟨Except.ok (some v), 1, []⟩
          | Except.error m =>
            ⟨Except.error (JsError.genericError ("Unexpected error: " ++ m)), 1, []⟩
        else
          ⟨Except.ok none, 1, []⟩
      else
        let msg := deriveErrorMessage r
        if r.status = 400 then
          ⟨Except.error (JsError.validationError msg none), 1, []⟩
        else if r.status = 401 then
          ⟨Except.error (JsError.apiError 401 ("Unauthorized") "Authentication required" endpoint), 1, []⟩
        else if r.status = 403 then
          ⟨Except.error (JsError.apiError 403 ("Forbidden") "Access denied" endpoint), 1, []⟩
        else if r.status = 404 then
          ⟨Except.error (JsError.apiError 404 ("Not Found") ("Resource not found: " ++ endpoint) endpoint), 1, []⟩
        else if r.status = 409 then
          ⟨Except.error (JsError.apiError 409 r.statusText msg endpoint), 1, []⟩
        else if r.status = 429 then
          if attempt < retries then
            let rr := requestLoop t endpoint retries (attempt + 1) fuel
            ⟨rr.result, rr.attempts + 1, (2 ^ attempt * 1000) :: rr.delays⟩
          else
            ⟨Except.error (JsError.apiError 429 ("Too Many Requests") "Rate limit exceeded" endpoint), 1, []⟩
        else if r.status = 500 then
          ⟨Except.error (JsError.apiError 500 ("Internal Server Error") "Server error occurred" endpoint), 1, []⟩
        else if r.status = 502 ∨ r.status = 503 ∨ r.status = 504 then
          if attempt < retries then
            let rr := requestLoop t endpoint retries (attempt + 1) fuel
            ⟨rr.result, rr.attempts + 1, (2 ^ attempt * 1000) :: rr.delays⟩
          else
            ⟨Except.error (JsError.apiError r.status r.statusText ("Service temporarily unavailable") endpoint), 1, []⟩
        else
          ⟨Except.error (JsError.apiError r.status r.statusText msg endpoint), 1, []⟩

/-- Model of `ApiService.request(endpoint, options, retries)`: run the loop from
attempt 0; the loop executes at most `retries + 1` iterations. -/
def request {α : Type} (t : Nat → FetchResult α) (endpoint : String)
    (retries : Nat := 3) : RunResult α :=
  requestLoop t endpoint retries 0 (retries + 1)

/-- JS truthiness test `!data[field]` on a string-valued record: the field is
falsy when absent (undefined) or the empty string (apiService.ts line 186).
Records are association lists; `List.lookup` returns the first binding. -/
def fieldFalsy (data : List (String × String)) (f : String) : Bool :=
  match data.lookup f with
  | none => true
  | some v => v = ""

/-- Model of `ApiService.validateRequired` (apiService.ts lines 184-190): the first
required field that is falsy yields `ValidationError("{field} is required",
field)`; `none` when all are present. -/
def validateRequired (data : List (String × String)) : List String → Option JsError
  | [] => none
  | f :: rest =>
    if fieldFalsy data f then some (JsError.validationError (f ++ " is required") (some f))
    else validateRequired data rest

/-- JS object spread of `extra` into an object literal that already lists the
bindings of `base`, on string-keyed records modelled as association lists read
with `List.lookup`: keys of `extra` override keys of `base`, other keys of
both survive. -/
def objSpread (base extra : List (String × String)) : List (String × String) :=
  base.filter (fun p => (extra.lookup p.1).isNone) ++ extra

/-- The headers actually issued by `ApiService.request` (apiService.ts lines
89-95).  The fetch init object lists a `headers` key holding Content-Type
spread-merged with `options.headers`, and then spreads `options` itself after
that key: the merged headers object is computed first, but the trailing
spread of `options` overwrites the `headers` key whenever the caller supplied
one, so the merge survives only when the caller supplied no headers. -/
def issuedHeaders (callerHeaders : Option (List (String × String))) :
    List (String × String) :=
  let merged := objSpread [("Content-Type", "application/json")] (callerHeaders.getD [])
  match callerHeaders with
  | some hs => hs
  | none => merged

/-- Model of `ApiService.createUser` (apiService.ts lines 193-207): validate required
fields, then dispatch; a 409 from the engine is remapped to a
ValidationError. -/
def createUser {α : Type} (t : Nat → FetchResult α)
    (userData : List (String × String)) : RunResult α :=
  match validateRequired userData ["username", "email", "displayName"] with
  | some e => ⟨Except.error e, 0, []⟩
  | none =>
    let r := request t ("/users") 3
    match r.result with
    | Except.error (JsError.apiError 409 _ _ _) =>
      ⟨Except.error (JsError.validationError ("Username or email already exists") none), r.attempts, r.delays⟩
    | other => ⟨other, r.attempts, r.delays⟩

/-- Model of `ApiService.getUser` (apiService.ts lines 209-222): reject a falsy id
before dispatch; a 404 from the engine is remapped to a ValidationError. -/
def getUser {α : Type} (t : Nat → FetchResult α) (id : String) : RunResult α :=
  if id = "" then
    ⟨Except.error (JsError.validationError ("User ID is required") none), 0, []⟩
  else
    let r := request t ("/users/" ++ id) 3
    match r.result with
    | Except.error (JsError.apiError 404 _ _ _) =>
      ⟨Except.error (JsError.validationError ("User not found") none), r.attempts, r.delays⟩
    | other => ⟨other, r.attempts, r.delays⟩

/-- Model of `ApiService.updateUser` (apiService.ts lines 254-266): reject a falsy id,
then an empty update payload, before dispatch. -/
def updateUser {α : Type} (t : Nat → FetchResult α) (id : String)
    (updates : List (String × String)) : RunResult α :=
  if id = "" then
    ⟨Except.error (JsError.validationError ("User ID is required") none), 0, []⟩
  else if updates.length = 0 then
    ⟨Except.error (JsError.validationError ("Update data is required") none), 0, []⟩
  else
    request t ("/users/" ++ id) 3

/-- Model of `ApiService.createSeries` (apiService.ts lines 279-286). -/
def createSeries {α : Type} (t : Nat → FetchResult α)
    (seriesData : List (String × String)) : RunResult α :=
  match validateRequired seriesData ["title", "userId", "genre"] with
  | some e => ⟨Except.error e, 0, []⟩
  | none => request t ("/series") 3

/-- Model of `ApiService.getUserSeries` (apiService.ts lines 296-309): reject a falsy
userId before dispatch; a 404 from the engine resolves to the empty list. -/
def getUserSeries {α : Type} (t : Nat → FetchResult (List α))
    (userId : String) : RunResult (List α) :=
  if userId = "" then
    ⟨Except.error (JsError.validationError ("User ID is required") none), 0, []⟩
  else
    let r := request t ("/series/user/" ++ userId) 3
    match r.result with
    | Except.error (JsError.apiError 404 _ _ _) => ⟨Except.ok (some []), r.attempts, r.delays⟩
    | other => ⟨other, r.attempts, r.delays⟩

/-- Model of `ApiService.getRecommendations` (apiService.ts lines 311-322): the userId
is optional and selected by JS truthiness (undefined and the empty string both
fall back to the bare endpoint); a 404 resolves to the empty list. -/
def getRecommendations {α : Type} (t : Nat → FetchResult (List α))
    (userId : Option String) : RunResult (List α) :=
  let endpoint :=
    match userId with
    | some u => if u = "" then ("/series/recommendations") else ("/series/recommendations/") ++ u
    | none => "/series/recommendations"
  let r := request t endpoint 3
  match r.result with
  | Except.error (JsError.apiError 404 _ _ _) => ⟨Except.ok (some []), r.attempts, r.delays⟩
  | other => ⟨other, r.attempts, r.delays⟩

/-- Model of `ApiService.updateSeries` (apiService.ts lines 324-336): reject falsy ids,
then an empty update payload, before dispatch. -/
def updateSeries {α : Type} (t : Nat → FetchResult α) (id : String) (userId : String)
    (updates : List (String × String)) : RunResult α :=
  if id = "" ∨ userId = "" then
    ⟨Except.error (JsError.validationError ("Series ID and User ID are required") none), 0, []⟩
  else if updates.length = 0 then
    ⟨Except.error (JsError.validationError ("Update data is required") none), 0, []⟩
  else
    request t ("/series/" ++ id ++ "/" ++ userId) 3

/-- Model of `ApiService.updateFavoriteList` (apiService.ts lines 419-424): dispatches
directly; this method performs no client-side validation at all. -/
def updateFavoriteList {α : Type} (t : Nat → FetchResult α) (userId : String)
    (listId : String) (updates : List (String × String)) : RunResult α :=
  request t ("/users/" ++ userId ++ "/favorites/" ++ listId) 3

end ApiService

/-- Model of `isRetryableError` (apiService.ts lines 485-495): true for NetworkError and
for ApiError with status in [408, 429, 502, 503, 504]; false otherwise — in
particular false for every non-Error value such as a string. -/
def isRetryableError : JsError → Bool
  | JsError.networkError _ _ => true
  | JsError.apiError status _ _ _ =>
    status == 408 || status == 429 || status == 502 || status == 503 || status == 504
  | _ => false

/-- Model of `getErrorMessage` (apiService.ts lines 447-482). -/
def getErrorMessage : JsError → String
  | JsError.validationError m _ => m
  | JsError.networkError _ _ =>
    "Unable to connect to the server. Please check your internet connection and try again."
  | JsError.apiError status _ m _ =>
    if status = 401 then ("Please log in to continue.")
    else if status = 403 then ("You do not have permission to perform this action.")
    else if status = 404 then ("The requested resource was not found.")
    else if status = 429 then ("Too many requests. Please wait a moment and try again.")
    else if status = 500 then ("A server error occurred. Please try again later.")
    else if status = 502 ∨ status = 503 ∨ status = 504 then
      ("The service is temporarily unavailable. Please try again later.")
    else if m = "" then ("An unexpected error occurred.") else m
  | JsError.genericError m => m
  | JsError.nonErrorValue _ => "An unexpected error occurred."

namespace UseApi

/-- The observable state of one `useApi` hook instance (useApi.ts lines
11-13): `loading`, `error` (the derived display message string or null), and
`data`. -/
structure CallState (α : Type) where
  loading : Bool
  error : Option String
  data : Option α
  deriving Repr

/-- The state a hook instance is created with (useApi.ts lines 11-13):
`useState(false)`, `useState(null)`, `useState(null)`. -/
def initialCallState {α : Type} : CallState α :=
  ⟨false, none, none⟩

/-- The state immediately after `execute` starts (useApi.ts lines 16-17):
`setLoading(true); setError(null)`; `data` is not touched. -/
def executeStart {α : Type} (s : CallState α) : CallState α :=
  { s with loading := true, error := none }

/-- Model of `useApi.execute` (useApi.ts lines 15-43) applied to the settled outcome of
`apiCall()`: on success store the value and return it; on failure store the
derived display message and rethrow the original error; `finally` clears
`loading`.  `data` is not written on the failure path. -/
def execute {α : Type} (s : CallState α) (out : Except JsError α) :
    CallState α × Except JsError α :=
  let s1 := executeStart s
  match out with
  | Except.ok v => ({ s1 with loading := false, data := some v }, Except.ok v)
  | Except.error e =>
    ({ s1 with loading := false, error := some (getErrorMessage e) }, Except.error e)

/-- The guard of `useApi.retry` and the exposed `canRetry` flag (useApi.ts
lines 46 and 65): `error && isRetryableError(error)` where `error` is the
stored message string (a JS string, truthy iff non-empty), passed to
`isRetryableError` as-is. -/
def canRetry {α : Type} (s : CallState α) : Bool :=
  match s.error with
  | some msg => msg ≠ "" && isRetryableError (JsError.nonErrorValue msg)
  | none => false

/-- Model of `useApi.retry` (useApi.ts lines 45-50) applied to the settled outcome the
underlying call would have: re-invoke `execute` when the guard passes,
otherwise throw `Error("Cannot retry this operation")` without any network
call.  The final component counts the `execute` invocations (0 or 1). -/
def retry {α : Type} (s : CallState α) (out : Except JsError α) :
    CallState α × Except JsError α × Nat :=
  if canRetry s then
    let (s2, res) := execute s out
    (s2, res, 1)
  else
    (s, Except.error (JsError.genericError ("Cannot retry this operation")), 0)

end UseApi

/-- Retry-eligible response statuses of the switch in `ApiService.request`:
429 and 502/503/504. -/
def retryableStatus (s : Nat) : Prop := s = 429 ∨ s = 502 ∨ s = 503 ∨ s = 504

instance (s : Nat) : Decidable (retryableStatus s) := by
  unfold retryableStatus; infer_instance

/-- The failure `ApiService.request` raises for a non-success response when no
retry is taken (the throws of the switch, apiService.ts lines 118-154). -/
def terminalError {α : Type} (endpoint : String) (r : Response α) : JsError :=
  let msg := ApiService.deriveErrorMessage r
  if r.status = 400 then JsError.validationError msg none
  else if r.status = 401 then JsError.apiError 401 ("Unauthorized") "Authentication required" endpoint
  else if r.status = 403 then JsError.apiError 403 ("Forbidden") "Access denied" endpoint
  else if r.status = 404 then JsError.apiError 404 ("Not Found") ("Resource not found: " ++ endpoint) endpoint
  else if r.status = 409 then JsError.apiError 409 r.statusText msg endpoint
  else if r.status = 429 then JsError.apiError 429 ("Too Many Requests") "Rate limit exceeded" endpoint
  else if r.status = 500 then JsError.apiError 500 ("Internal Server Error") "Server error occurred" endpoint
  else if r.status = 502 ∨ r.status = 503 ∨ r.status = 504 then
    JsError.apiError r.status r.statusText ("Service temporarily unavailable") endpoint
  else JsError.apiError r.status r.statusText msg endpoint

/-- Step lemma: a network-level failure retries when attempts remain,
otherwise raises the NetworkError. -/
lemma requestLoop_netFail {α : Type} {t : Nat → FetchResult α} {ep : String}
    {retries attempt fuel : Nat} (h : t attempt = FetchResult.netFail) :
    ApiService.requestLoop t ep retries attempt (fuel + 1) =
      if attempt < retries then
        ⟨(ApiService.requestLoop t ep retries (attempt + 1) fuel).result,
         (ApiService.requestLoop t ep retries (attempt + 1) fuel).attempts + 1,
         (2 ^ attempt * 1000) :: (ApiService.requestLoop t ep retries (attempt + 1) fuel).delays⟩
      else
        ⟨Except.error (JsError.networkError
          ("Network connection failed. Please check your internet connection.") ep), 1, []⟩ := by
  rw [ApiService.requestLoop, h]

/-- Step lemma: any other thrown value terminates at once with a generic
Error. -/
lemma requestLoop_otherFail {α : Type} {t : Nat → FetchResult α} {ep : String}
    {retries attempt fuel : Nat} {m : String} (h : t attempt = FetchResult.otherFail m) :
    ApiService.requestLoop t ep retries attempt (fuel + 1) =
      ⟨Except.error (JsError.genericError ("Unexpected error: " ++ m)), 1, []⟩ := by
  rw [ApiService.requestLoop, h]

/-- Step lemma: a success response terminates at once, resolving to the
parsed body, to null, or to a generic Error when json() throws. -/
lemma requestLoop_respOk {α : Type} {t : Nat → FetchResult α} {ep : String}
    {retries attempt fuel : Nat} {r : Response α} (h : t attempt = FetchResult.resp r)
    (hok : r.ok = true) :
    ApiService.requestLoop t ep retries attempt (fuel + 1) =
      if r.hasJsonContentType then
        match r.jsonParse with
        | Except.ok v => ⟨Except.ok (some v), 1, []⟩
        | Except.error m =>
          ⟨Except.error (JsError.genericError ("Unexpected error: " ++ m)), 1, []⟩
      else ⟨Except.ok none, 1, []⟩ := by
  rw [ApiService.requestLoop, h]
  dsimp only
  rw [if_pos hok]

/-- Step lemma: a non-success response retries exactly when its status is
429/502/503/504 and attempts remain, and otherwise raises `terminalError`. -/
lemma requestLoop_respNotOk {α : Type} {t : Nat → FetchResult α} {ep : String}
    {retries attempt fuel : Nat} {r : Response α} (h : t attempt = FetchResult.resp r)
    (hok : r.ok = false) :
    ApiService.requestLoop t ep retries attempt (fuel + 1) =
      if retryableStatus r.status ∧ attempt < retries then
        ⟨(ApiService.requestLoop t ep retries (attempt + 1) fuel).result,
         (ApiService.requestLoop t ep retries (attempt + 1) fuel).attempts + 1,
         (2 ^ attempt * 1000) :: (ApiService.requestLoop t ep retries (attempt + 1) fuel).delays⟩
      else
        ⟨Except.error (terminalError ep r), 1, []⟩ := by
  rw [ApiService.requestLoop, h]
  dsimp only
  rw [if_neg (by rw [hok]; exact Bool.false_ne_true)]
  by_cases h400 : r.status = 400
  · rw [if_pos h400, if_neg (fun hc => by rcases hc.1 with h|h|h|h <;> omega)]
    rw [terminalError, if_pos h400]
  · rw [if_neg h400]
    by_cases h401 : r.status = 401
    · rw [if_pos h401, if_neg (fun hc => by rcases hc.1 with h|h|h|h <;> omega)]
      rw [terminalError, if_neg h400, if_pos h401]
    · rw [if_neg h401]
      by_cases h403 : r.status = 403
      · rw [if_pos h403, if_neg (fun hc => by rcases hc.1 with h|h|h|h <;> omega)]
        rw [terminalError, if_neg h400, if_neg h401, if_pos h403]
      · rw [if_neg h403]
        by_cases h404 : r.status = 404
        · rw [if_pos h404, if_neg (fun hc => by rcases hc.1 with h|h|h|h <;> omega)]
          rw [terminalError, if_neg h400, if_neg h401, if_neg h403, if_pos h404]
        · rw [if_neg h404]
          by_cases h409 : r.status = 409
          · rw [if_pos h409, if_neg (fun hc => by rcases hc.1 with h|h|h|h <;> omega)]
            rw [terminalError, if_neg h400, if_neg h401, if_neg h403, if_neg h404, if_pos h409]
          · rw [if_neg h409]
            by_cases h429 : r.status = 429
            · rw [if_pos h429]
              by_cases hatt : attempt < retries
              · rw [if_pos hatt, if_pos ⟨Or.inl h429, hatt⟩]
              · rw [if_neg hatt, if_neg (fun hc => hatt hc.2)]
                rw [terminalError, if_neg h400, if_neg h401, if_neg h403, if_neg h404,
                  if_neg h409, if_pos h429]
            · rw [if_neg h429]
              by_cases h500 : r.status = 500
              · rw [if_pos h500, if_neg (fun hc => by rcases hc.1 with h|h|h|h <;> omega)]
                rw [terminalError, if_neg h400, if_neg h401, if_neg h403, if_neg h404,
                  if_neg h409, if_neg h429, if_pos h500]
              · rw [if_neg h500]
                by_cases h50x : r.status = 502 ∨ r.status = 503 ∨ r.status = 504
                · rw [if_pos h50x]
                  by_cases hatt : attempt < retries
                  · rw [if_pos hatt, if_pos ⟨Or.inr h50x, hatt⟩]
                  · rw [if_neg hatt, if_neg (fun hc => hatt hc.2)]
                    rw [terminalError, if_neg h400, if_neg h401, if_neg h403, if_neg h404,
                      if_neg h409, if_neg h429, if_neg h500, if_pos h50x]
                · rw [if_neg h50x]
                  have hnr : ¬(retryableStatus r.status ∧ attempt < retries) := by
                    rintro ⟨h4 | h5 | h5 | h5, -⟩
                    · exact h429 h4
                    · exact h50x (Or.inl h5)
                    · exact h50x (Or.inr (Or.inl h5))
                    · exact h50x (Or.inr (Or.inr h5))
                  rw [if_neg hnr]
                  rw [terminalError, if_neg h400, if_neg h401, if_neg h403, if_neg h404,
                    if_neg h409, if_neg h429, if_neg h500, if_neg h50x]


/-- C3: `isRetryableError e` is true exactly when `e` is a NetworkError
(TransportFailure) or an ApiError (ResponseFailure) whose status is one of
408, 429, 502, 503, 504; it is false for every ValidationError, every
ApiError with another status, and every other value. -/
theorem isRetryableError_characterisation (e : JsError) :
    isRetryableError e = true ↔
      ((∃ m ep, e = JsError.networkError m ep) ∨
       (∃ st tx m ep, e = JsError.apiError st tx m ep ∧
         (st = 408 ∨ st = 429 ∨ st = 502 ∨ st = 503 ∨ st = 504))) := by
  cases e <;> simp [isRetryableError] <;> tauto

/-- Closed instance of `isRetryableError_characterisation` at a concrete
retryable and a concrete non-retryable input. -/
theorem isRetryableError_characterisation_witness :
    isRetryableError (JsError.apiError 503 ("Service Unavailable") "m" "/e") = true ∧
    isRetryableError (JsError.validationError ("m") none) ≠ true :=
  ⟨(isRetryableError_characterisation _).mpr
      (Or.inr ⟨503, "Service Unavailable", "m", "/e", rfl, by decide⟩),
   fun h => by
     rcases (isRetryableError_characterisation _).mp h with ⟨m, ep, hh⟩ | ⟨st, tx, m, ep, hh, _⟩ <;>
       exact JsError.noConfusion hh⟩

/-- C9 counterexample: after a successful `execute` stored a value, a failing
`execute` leaves that stale value in `data` while `error` is non-null, so the
claimed resolution to `data = null` on failure (and the derived invariant
that `data` is null whenever `error` is non-null) fails on the code. -/
theorem execute_failure_keeps_stale_data :
    ((UseApi.execute
        (UseApi.execute (UseApi.initialCallState (α := Nat)) (Except.ok 7)).1
        (Except.error (JsError.genericError ("boom")))).1.error = some ("boom")) ∧
    ((UseApi.execute
        (UseApi.execute (UseApi.initialCallState (α := Nat)) (Except.ok 7)).1
        (Except.error (JsError.genericError ("boom")))).1.data = some 7) :=
  ⟨rfl, rfl⟩

/-- C9 (amended): the CallState lifecycle as the code implements it — created
at loading=false, error=null, data=null; execute sets loading=true and
error=null on invocation start without touching data; a successful execute
resolves to loading=false, data=value, error=null; a failing execute resolves
to loading=false, error=message and leaves `data` unchanged (it does not
reset it to null), so data=null on failure holds when starting from the
freshly created state. -/
theorem callState_lifecycle (α : Type) (s : UseApi.CallState α) (v : α) (e : JsError) :
    ((UseApi.initialCallState (α := α)).loading = false ∧
     (UseApi.initialCallState (α := α)).error = none ∧
     (UseApi.initialCallState (α := α)).data = none) ∧
    ((UseApi.executeStart s).loading = true ∧
     (UseApi.executeStart s).error = none ∧
     (UseApi.executeStart s).data = s.data) ∧
    (UseApi.execute s (Except.ok v) =
      (⟨false, none, some v⟩, Except.ok v)) ∧
    ((UseApi.execute s (Except.error e)).1 =
      ⟨false, some (getErrorMessage e), s.data⟩ ∧
     (UseApi.execute s (Except.error e)).2 = Except.error e) ∧
    ((UseApi.execute (UseApi.initialCallState (α := α)) (Except.error e)).1.data = none) :=
  ⟨⟨rfl, rfl, rfl⟩, ⟨rfl, rfl, rfl⟩, rfl, ⟨rfl, rfl⟩, rfl⟩

/-- Closed instance of `callState_lifecycle` at concrete inputs. -/
theorem callState_lifecycle_witness :
    UseApi.execute (UseApi.initialCallState (α := Nat)) (Except.ok 3) =
      (⟨false, none, some 3⟩, Except.ok 3) :=
  (callState_lifecycle Nat UseApi.initialCallState 3 (JsError.genericError ("x"))).2.2.1

/-- C2 evidence: the hook state stores only the derived message string, and
`retry` applies the instance-based classifier `isRetryableError` to that
string, which returns false for every string; so even after a failure whose
underlying error is a retryable TransportFailure, `retry` performs no call
and throws Error("Cannot retry this operation"), and `canRetry` is false in
every reachable state. -/
theorem retry_never_reinvokes :
    (isRetryableError (JsError.networkError
        ("Network connection failed. Please check your internet connection.") "/users/1") = true) ∧
    ((UseApi.execute (UseApi.initialCallState (α := Nat))
        (Except.error (JsError.networkError
          ("Network connection failed. Please check your internet connection.") "/users/1"))).1.error =
      some ("Unable to connect to the server. Please check your internet connection and try again.")) ∧
    (UseApi.retry
        (UseApi.execute (UseApi.initialCallState (α := Nat))
          (Except.error (JsError.networkError
            ("Network connection failed. Please check your internet connection.") "/users/1"))).1
        (Except.ok 0) =
      ((UseApi.execute (UseApi.initialCallState (α := Nat))
          (Except.error (JsError.networkError
            ("Network connection failed. Please check your internet connection.") "/users/1"))).1,
       Except.error (JsError.genericError ("Cannot retry this operation")), 0)) ∧
    (∀ (s : UseApi.CallState Nat), UseApi.canRetry s = false) := by
  refine ⟨rfl, rfl, rfl, ?_⟩
  intro s
  rcases s with ⟨l, err, d⟩
  cases err with
  | none => rfl
  | some msg => simp [UseApi.canRetry, isRetryableError]

/-- C7 evidence: when the caller supplies any headers object (here one that
does not include Content-Type), the issued request headers are exactly the
headers of the caller, with no Content-Type entry — the default is lost because the
trailing spread of `options` overwrites the merged `headers` key; the merge
the code first computes (and the default when no caller headers are given)
would have carried Content-Type: application/json. -/
theorem issuedHeaders_clobbered_by_options_spread :
    ((ApiService.issuedHeaders (some [("Authorization", "Bearer token")])).lookup
        ("Content-Type") = none) ∧
    ((ApiService.issuedHeaders none).lookup ("Content-Type") = some ("application/json")) ∧
    ((ApiService.objSpread [("Content-Type", "application/json")]
        [("Authorization", "Bearer token")]).lookup ("Content-Type") =
      some ("application/json")) := by
  refine ⟨?_, ?_, ?_⟩ <;> rfl

/-- Helper: when some required field is falsy, `validateRequired` returns a
ValidationError carrying some falsy field name. -/
lemma validateRequired_some_of_falsy (data : List (String × String)) :
    ∀ (fields : List String) (f : String), f ∈ fields → ApiService.fieldFalsy data f = true →
      ∃ g, g ∈ fields ∧ ApiService.fieldFalsy data g = true ∧
        ApiService.validateRequired data fields =
          some (JsError.validationError (g ++ " is required") (some g)) := by
  intro fields
  induction fields with
  | nil => intro f hf _; exact absurd hf (List.not_mem_nil f)
  | cons a rest ih =>
    intro f hf hfalsy
    by_cases ha : ApiService.fieldFalsy data a = true
    · exact ⟨a, List.mem_cons_self a rest, ha, by simp [ApiService.validateRequired, ha]⟩
    · have hfa : f ≠ a := fun h => ha (h ▸ hfalsy)
      have hfr : f ∈ rest := by
        rcases List.mem_cons.mp hf with h | h
        · exact absurd h hfa
        · exact h
      rcases ih f hfr hfalsy with ⟨g, hg, hgf, heq⟩
      exact ⟨g, List.mem_cons_of_mem a hg,
        hgf, by simp [ApiService.validateRequired, ha, heq]⟩

/-- C5: facade operations with a missing or empty required input throw a
ValidationError before the Request Engine is invoked — the transport
invocation count is exactly 0 — for getUser with an empty id, createUser with
any of username/email/displayName missing or empty, and createSeries with any
of title/userId/genre missing or empty. -/
theorem facade_validates_before_dispatch {α : Type} (t : Nat → FetchResult α)
    (userData seriesData : List (String × String)) :
    (ApiService.getUser t ("") =
      ⟨Except.error (JsError.validationError ("User ID is required") none), 0, []⟩) ∧
    ((∃ f, f ∈ ["username", "email", "displayName"] ∧ ApiService.fieldFalsy userData f = true) →
      (ApiService.createUser t userData).attempts = 0 ∧
      ∃ g, (ApiService.createUser t userData).result =
        Except.error (JsError.validationError (g ++ " is required") (some g))) ∧
    ((∃ f, f ∈ ["title", "userId", "genre"] ∧ ApiService.fieldFalsy seriesData f = true) →
      (ApiService.createSeries t seriesData).attempts = 0 ∧
      ∃ g, (ApiService.createSeries t seriesData).result =
        Except.error (JsError.validationError (g ++ " is required") (some g))) := by
  refine ⟨rfl, ?_, ?_⟩
  · rintro ⟨f, hf, hfalsy⟩
    rcases validateRequired_some_of_falsy userData _ f hf hfalsy with ⟨g, _, _, heq⟩
    rw [ApiService.createUser, heq]
    exact ⟨rfl, g, rfl⟩
  · rintro ⟨f, hf, hfalsy⟩
    rcases validateRequired_some_of_falsy seriesData _ f hf hfalsy with ⟨g, _, _, heq⟩
    rw [ApiService.createSeries, heq]
    exact ⟨rfl, g, rfl⟩

/-- Closed instance of `facade_validates_before_dispatch`: createSeries with
only a title (userId and genre missing) is rejected with 0 transport
invocations. -/
theorem facade_validates_before_dispatch_witness :
    (ApiService.createSeries (fun _ => (FetchResult.netFail : FetchResult Nat))
        [("title", "X")]).attempts = 0 ∧
    ∃ g, (ApiService.createSeries (fun _ => (FetchResult.netFail : FetchResult Nat))
        [("title", "X")]).result =
      Except.error (JsError.validationError (g ++ " is required") (some g)) :=
  (facade_validates_before_dispatch (fun _ => (FetchResult.netFail : FetchResult Nat))
      [("title", "X")] [("title", "X")]).2.2
    ⟨"userId", by decide, by decide⟩

/-- Helper: the request loop always issues at least one transport invocation
when at least one loop iteration remains. -/
lemma requestLoop_attempts_pos {α : Type} (t : Nat → FetchResult α) (ep : String)
    (retries attempt fuel : Nat) :
    1 ≤ (ApiService.requestLoop t ep retries attempt (fuel + 1)).attempts := by
  cases h : t attempt
  case netFail =>
    rw [requestLoop_netFail h]
    split
    · exact Nat.le_add_left 1 _
    · exact Nat.le_refl 1
  case otherFail m =>
    rw [requestLoop_otherFail h]
  case resp r =>
    cases hok : r.ok
    · rw [requestLoop_respNotOk h hok]
      split
      · exact Nat.le_add_left 1 _
      · exact Nat.le_refl 1
    · rw [requestLoop_respOk h hok]
      split
      · cases r.jsonParse <;> exact Nat.le_refl 1
      · exact Nat.le_refl 1

/-- Helper: `request` always issues at least one transport invocation. -/
lemma request_attempts_pos {α : Type} (t : Nat → FetchResult α) (ep : String)
    (retries : Nat) : 1 ≤ (ApiService.request t ep retries).attempts :=
  requestLoop_attempts_pos t ep retries 0 retries

/-- C8 counterexample: `updateFavoriteList` called with an empty update
payload performs no client-side check and dispatches the request — one
transport invocation and a success result, not a ValidationError with zero
invocations. -/
theorem updateFavoriteList_empty_payload_dispatches :
    (ApiService.updateFavoriteList
        (fun _ => FetchResult.resp (⟨true, 200, "OK", true, Except.ok 0, none⟩ : Response Nat))
        "u1" "l1" []).attempts = 1 ∧
    (ApiService.updateFavoriteList
        (fun _ => FetchResult.resp (⟨true, 200, "OK", true, Except.ok 0, none⟩ : Response Nat))
        "u1" "l1" []).result = Except.ok (some 0) :=
  ⟨rfl, rfl⟩

/-- C8 (amended): updateUser and updateSeries reject an empty update payload
client-side with a ValidationError and zero transport invocations (when their
identifier arguments are non-empty, so the payload check is the one that
fires); updateFavoriteList performs no such check and always dispatches —
at least one transport invocation. -/
theorem update_ops_empty_payload {α : Type} (t : Nat → FetchResult α)
    (id userId listId : String) (hid : id ≠ "") (huid : userId ≠ "") :
    (ApiService.updateUser t id [] =
      ⟨Except.error (JsError.validationError ("Update data is required") none), 0, []⟩) ∧
    (ApiService.updateSeries t id userId [] =
      ⟨Except.error (JsError.validationError ("Update data is required") none), 0, []⟩) ∧
    (1 ≤ (ApiService.updateFavoriteList t userId listId []).attempts) := by
  refine ⟨?_, ?_, ?_⟩
  · simp [ApiService.updateUser, hid]
  · simp [ApiService.updateSeries, hid, huid]
  · exact request_attempts_pos t _ 3

/-- Closed instance of `update_ops_empty_payload` at concrete inputs. -/
theorem update_ops_empty_payload_witness :
    ApiService.updateUser (fun _ => (FetchResult.netFail : FetchResult Nat)) "u1" [] =
      ⟨Except.error (JsError.validationError ("Update data is required") none), 0, []⟩ :=
  (update_ops_empty_payload (fun _ => (FetchResult.netFail : FetchResult Nat))
      "u1" "u2" "l1" (by decide) (by decide)).1

/-- C6: for a non-empty userId, when the Request Engine run underlying
getUserSeries or getRecommendations terminates with a 404 ResponseFailure the
operation resolves to the empty list instead of throwing; every other engine
outcome (any other failure, and any success) is propagated unchanged. -/
theorem list_reads_swallow_404 {α : Type} (t1 t2 : Nat → FetchResult (List α))
    (userId : String) (h : userId ≠ "") :
    ((∀ tx m ep2,
        (ApiService.request t1 ("/series/user/" ++ userId) 3).result =
          Except.error (JsError.apiError 404 tx m ep2) →
        (ApiService.getUserSeries t1 userId).result = Except.ok (some [])) ∧
     (∀ e, (ApiService.request t1 ("/series/user/" ++ userId) 3).result = Except.error e →
        (∀ tx m ep2, e ≠ JsError.apiError 404 tx m ep2) →
        (ApiService.getUserSeries t1 userId).result = Except.error e) ∧
     (∀ v, (ApiService.request t1 ("/series/user/" ++ userId) 3).result = Except.ok v →
        (ApiService.getUserSeries t1 userId).result = Except.ok v)) ∧
    ((∀ tx m ep2,
        (ApiService.request t2 ("/series/recommendations/" ++ userId) 3).result =
          Except.error (JsError.apiError 404 tx m ep2) →
        (ApiService.getRecommendations t2 (some userId)).result = Except.ok (some [])) ∧
     (∀ e, (ApiService.request t2 ("/series/recommendations/" ++ userId) 3).result =
          Except.error e →
        (∀ tx m ep2, e ≠ JsError.apiError 404 tx m ep2) →
        (ApiService.getRecommendations t2 (some userId)).result = Except.error e) ∧
     (∀ v, (ApiService.request t2 ("/series/recommendations/" ++ userId) 3).result =
          Except.ok v →
        (ApiService.getRecommendations t2 (some userId)).result = Except.ok v)) := by
  constructor
  · refine ⟨?_, ?_, ?_⟩
    · intro tx m ep2 heq
      simp only [ApiService.getUserSeries, if_neg h, heq]
    · intro e heq hne
      simp only [ApiService.getUserSeries, if_neg h, heq]
      split
      · next h404 => exact absurd (Except.error.inj h404) (hne _ _ _)
      · rfl
    · intro v heq
      simp only [ApiService.getUserSeries, if_neg h, heq]
  · refine ⟨?_, ?_, ?_⟩
    · intro tx m ep2 heq
      simp only [ApiService.getRecommendations, if_neg h, heq]
    · intro e heq hne
      simp only [ApiService.getRecommendations, if_neg h, heq]
      split
      · next h404 => exact absurd (Except.error.inj h404) (hne _ _ _)
      · rfl
    · intro v heq
      simp only [ApiService.getRecommendations, if_neg h, heq]

/-- Closed instance of `list_reads_swallow_404`: a transport that always
answers 404 makes getUserSeries resolve to the empty list. -/
theorem list_reads_swallow_404_witness :
    (ApiService.getUserSeries
        (fun _ => FetchResult.resp
          (⟨false, 404, "Not Found", false, Except.error ("no body"), none⟩ : Response (List Nat)))
        "u1").result = Except.ok (some []) :=
  (list_reads_swallow_404
      (fun _ => FetchResult.resp
        (⟨false, 404, "Not Found", false, Except.error ("no body"), none⟩ : Response (List Nat)))
      (fun _ => FetchResult.resp
        (⟨false, 404, "Not Found", false, Except.error ("no body"), none⟩ : Response (List Nat)))
      "u1" (by decide)).1.1 ("Not Found") "Resource not found: /series/user/u1" "/series/user/u1"
    rfl

/-- C10: a first attempt that yields a success response, a terminal
transport-level throw, or a non-success response whose status is outside
429/502/503/504 makes `request` settle after exactly one transport invocation
with no backoff delay (the non-retried response raising its terminal
classification); and whenever a second attempt happens at all, the first
attempt was a classified network failure or a response with status
429/502/503/504. -/
theorem single_attempt_terminal {α : Type} (t : Nat → FetchResult α) (ep : String) :
    (∀ r, t 0 = FetchResult.resp r → r.ok = true →
      (ApiService.request t ep 3).attempts = 1 ∧
      (ApiService.request t ep 3).delays = []) ∧
    (∀ m, t 0 = FetchResult.otherFail m →
      (ApiService.request t ep 3).attempts = 1 ∧
      (ApiService.request t ep 3).delays = []) ∧
    (∀ r, t 0 = FetchResult.resp r → r.ok = false → ¬ retryableStatus r.status →
      (ApiService.request t ep 3).attempts = 1 ∧
      (ApiService.request t ep 3).delays = [] ∧
      (ApiService.request t ep 3).result = Except.error (terminalError ep r)) ∧
    (2 ≤ (ApiService.request t ep 3).attempts →
      t 0 = FetchResult.netFail ∨
      ∃ r, t 0 = FetchResult.resp r ∧ r.ok = false ∧ retryableStatus r.status) := by
  refine ⟨?_, ?_, ?_, ?_⟩
  · intro r h hok
    rw [ApiService.request, requestLoop_respOk h hok]
    by_cases hj : r.hasJsonContentType = true
    · rw [if_pos hj]
      cases hp : r.jsonParse with
      | ok v => exact ⟨rfl, rfl⟩
      | error m => exact ⟨rfl, rfl⟩
    · rw [if_neg hj]; exact ⟨rfl, rfl⟩
  · intro m h
    rw [ApiService.request, requestLoop_otherFail h]
    exact ⟨rfl, rfl⟩
  · intro r h hok hnr
    rw [ApiService.request, requestLoop_respNotOk h hok, if_neg (fun hc => hnr hc.1)]
    exact ⟨rfl, rfl, rfl⟩
  · intro h2
    cases h : t 0 with
    | netFail => exact Or.inl rfl
    | otherFail m =>
      rw [ApiService.request, requestLoop_otherFail h] at h2
      simp at h2
    | resp r =>
      cases hok : r.ok with
      | false =>
        by_cases hr : retryableStatus r.status
        · exact Or.inr ⟨r, rfl, hok, hr⟩
        · rw [ApiService.request, requestLoop_respNotOk h hok,
            if_neg (fun hc => hr hc.1)] at h2
          simp at h2
      | true =>
        rw [ApiService.request, requestLoop_respOk h hok] at h2
        by_cases hj : r.hasJsonContentType = true
        · rw [if_pos hj] at h2
          cases hp : r.jsonParse with
          | ok v => rw [hp] at h2; simp at h2
          | error m => rw [hp] at h2; simp at h2
        · rw [if_neg hj] at h2; simp at h2

/-- Closed instance of `single_attempt_terminal`: a single 500 response is
terminal after exactly one transport invocation with no delay. -/
theorem single_attempt_terminal_witness :
    (ApiService.request
        (fun _ => FetchResult.resp
          (⟨false, 500, "Internal Server Error", false, Except.error ("no body"), none⟩ :
            Response Nat)) "/users/1" 3).attempts = 1 :=
  ((single_attempt_terminal
      (fun _ => FetchResult.resp
        (⟨false, 500, "Internal Server Error", false, Except.error ("no body"), none⟩ :
          Response Nat)) "/users/1").2.2.1
    ⟨false, 500, "Internal Server Error", false, Except.error ("no body"), none⟩
    rfl rfl (by decide)).1

/-- C1: for each status in 502/503/504/429 and the default retry ceiling 3,
`request` behaves as a bounded retry loop.  If the transport yields responses
with that status on the first k-1 attempts and a parseable JSON success on
attempt k (1-indexed, k ≤ 4), the call resolves to the parsed value after
exactly k transport invocations with waits of 2^0, ..., 2^(k-2) seconds
(recorded here as 2^i * 1000 ms) between consecutive attempts; if all 4
attempts yield that status, the call rejects with an ApiError carrying the
last status and the literal message "Rate limit exceeded" for 429 or
"Service temporarily unavailable" for 502/503/504, after 4 invocations and
waits of 1, 2, 4 seconds. -/
theorem retry_loop_bounded {α : Type} (ep : String) (s : Nat)
    (hs : s = 502 ∨ s = 503 ∨ s = 504 ∨ s = 429) :
    (∀ (k : Nat), 1 ≤ k → k ≤ 4 →
      ∀ (t : Nat → FetchResult α) (rs : Nat → Response α) (rOk : Response α) (v : α),
        (∀ i, i < k - 1 → t i = FetchResult.resp (rs i)) →
        (∀ i, i < k - 1 → (rs i).ok = false ∧ (rs i).status = s) →
        t (k - 1) = FetchResult.resp rOk →
        rOk.ok = true → rOk.hasJsonContentType = true → rOk.jsonParse = Except.ok v →
        ApiService.request t ep 3 =
          ⟨Except.ok (some v), k, (List.range (k - 1)).map (fun i => 2 ^ i * 1000)⟩) ∧
    (∀ (t : Nat → FetchResult α) (rs : Nat → Response α),
        (∀ i, i ≤ 3 → t i = FetchResult.resp (rs i)) →
        (∀ i, i ≤ 3 → (rs i).ok = false ∧ (rs i).status = s) →
        ApiService.request t ep 3 =
          ⟨Except.error (JsError.apiError s
              (if s = 429 then ("Too Many Requests") else (rs 3).statusText)
              (if s = 429 then ("Rate limit exceeded") else ("Service temporarily unavailable"))
              ep),
            4, [1000, 2000, 4000]⟩) := by
  rcases hs with rfl | rfl | rfl | rfl <;> refine ⟨?_, ?_⟩ <;>
    first
      | (intro k hk1 hk4 t rs rOk v ht hf hsucc hok hct hparse
         interval_cases k <;>
           (norm_num at hsucc ⊢
            simp [ApiService.request, ApiService.requestLoop, List.range_succ, ht, hf,
              hsucc, hok, hct, hparse]))
      | (intro t rs ht hf
         simp [ApiService.request, ApiService.requestLoop, ht, hf])

/-- Closed instance of `retry_loop_bounded`: two 503 responses followed by a
parseable success resolve to the parsed value after exactly 3 invocations
with waits of 1s then 2s. -/
theorem retry_loop_bounded_witness :
    ApiService.request
        (fun i => if i < 2 then
          FetchResult.resp (⟨false, 503, "Service Unavailable", false, Except.error ("nb"), none⟩ :
            Response Nat)
        else
          FetchResult.resp (⟨true, 200, "OK", true, Except.ok 7, none⟩ : Response Nat))
        "/users/1" 3 =
      ⟨Except.ok (some 7), 3, (List.range 2).map (fun i => 2 ^ i * 1000)⟩ :=
  (retry_loop_bounded ("/users/1") 503 (Or.inr (Or.inl rfl))).1 3 (by decide) (by decide)
    _
    (fun _ => ⟨false, 503, "Service Unavailable", false, Except.error ("nb"), none⟩)
    ⟨true, 200, "OK", true, Except.ok 7, none⟩ 7
    (fun i hi => by simp [hi]) (fun i _ => ⟨rfl, rfl⟩) rfl rfl rfl rfl

/-- A transport that never throws anything other than a classified network
TypeError and whose 2xx JSON bodies always parse: under these assumptions the
generic `Unexpected error` throw of `request` (apiService.ts lines 170-172)
is unreachable. -/
def tameTransport {α : Type} (t : Nat → FetchResult α) : Prop :=
  ∀ i, (∀ m, t i ≠ FetchResult.otherFail m) ∧
    (∀ r, t i = FetchResult.resp r → r.ok = true → r.hasJsonContentType = true →
      ∃ v, r.jsonParse = Except.ok v)

/-- Helper: `terminalError` is an ApiError for every status except 400, where
it is a ValidationError. -/
lemma terminalError_spec {α : Type} (ep : String) (r : Response α) :
    (∃ st tx m ep2, terminalError ep r = JsError.apiError st tx m ep2) ∨
    ((∃ m, terminalError ep r = JsError.validationError m none) ∧ r.status = 400) := by
  unfold terminalError
  split_ifs with h400 h401 h403 h404 h409 h429 h500 h50x
  · exact Or.inr ⟨⟨_, rfl⟩, h400⟩
  · exact Or.inl ⟨_, _, _, _, rfl⟩
  · exact Or.inl ⟨_, _, _, _, rfl⟩
  · exact Or.inl ⟨_, _, _, _, rfl⟩
  · exact Or.inl ⟨_, _, _, _, rfl⟩
  · exact Or.inl ⟨_, _, _, _, rfl⟩
  · exact Or.inl ⟨_, _, _, _, rfl⟩
  · exact Or.inl ⟨_, _, _, _, rfl⟩
  · exact Or.inl ⟨_, _, _, _, rfl⟩

/-- Helper: loop invariant for failure classification.  Every error produced
by a tame-transport run of the loop is a NetworkError or an ApiError, except
a ValidationError raised for a response whose status is 400 at the final
attempt. -/
lemma requestLoop_classified {α : Type} (t : Nat → FetchResult α) (ep : String)
    (retries : Nat) (htame : tameTransport t) :
    ∀ (fuel attempt : Nat), attempt + fuel = retries + 1 → 1 ≤ fuel →
      ∀ e, (ApiService.requestLoop t ep retries attempt fuel).result = Except.error e →
        ((∃ m ep2, e = JsError.networkError m ep2) ∨
         (∃ st tx m ep2, e = JsError.apiError st tx m ep2) ∨
         ((∃ m f, e = JsError.validationError m f) ∧
          ∃ r, t (attempt + (ApiService.requestLoop t ep retries attempt fuel).attempts - 1) =
                 FetchResult.resp r ∧ r.ok = false ∧ r.status = 400)) := by
  intro fuel
  induction fuel with
  | zero => intro attempt _ h1; exact absurd h1 (by omega)
  | succ fuel ih =>
    intro attempt hsum _ e herr
    cases h : t attempt with
    | netFail =>
      by_cases hatt : attempt < retries
      · rw [requestLoop_netFail h, if_pos hatt] at herr ⊢
        rcases ih (attempt + 1) (by omega) (by omega) e herr with hc | hc | ⟨hval, r, hr, hro, hrs⟩
        · exact Or.inl hc
        · exact Or.inr (Or.inl hc)
        · refine Or.inr (Or.inr ⟨hval, r, ?_, hro, hrs⟩)
          have harith :
              attempt + ((ApiService.requestLoop t ep retries (attempt + 1) fuel).attempts + 1) - 1 =
              attempt + 1 + (ApiService.requestLoop t ep retries (attempt + 1) fuel).attempts - 1 := by
            omega
          rw [harith]
          exact hr
      · rw [requestLoop_netFail h, if_neg hatt] at herr
        exact Or.inl ⟨_, _, (Except.error.inj herr).symm⟩
    | otherFail m => exact absurd h ((htame attempt).1 m)
    | resp r =>
      cases hok : r.ok with
      | true =>
        rw [requestLoop_respOk h hok] at herr
        by_cases hjs : r.hasJsonContentType = true
        · rcases (htame attempt).2 r h hok hjs with ⟨v, hv⟩
          rw [if_pos hjs, hv] at herr
          simp at herr
        · rw [if_neg hjs] at herr
          simp at herr
      | false =>
        by_cases hcond : retryableStatus r.status ∧ attempt < retries
        · rw [requestLoop_respNotOk h hok, if_pos hcond] at herr ⊢
          rcases ih (attempt + 1) (by omega) (by omega) e herr with hc | hc | ⟨hval, r2, hr2, hro2, hrs2⟩
          · exact Or.inl hc
          · exact Or.inr (Or.inl hc)
          · refine Or.inr (Or.inr ⟨hval, r2, ?_, hro2, hrs2⟩)
            have harith :
                attempt + ((ApiService.requestLoop t ep retries (attempt + 1) fuel).attempts + 1) - 1 =
                attempt + 1 + (ApiService.requestLoop t ep retries (attempt + 1) fuel).attempts - 1 := by
              omega
            rw [harith]
            exact hr2
        · rw [requestLoop_respNotOk h hok, if_neg hcond] at herr ⊢
          have he : e = terminalError ep r := (Except.error.inj herr).symm
          rcases terminalError_spec ep r with ⟨st, tx, m, ep2, hte⟩ | ⟨⟨m, hte⟩, h400⟩
          · exact Or.inr (Or.inl ⟨st, tx, m, ep2, he.trans hte⟩)
          · refine Or.inr (Or.inr ⟨⟨m, none, he.trans hte⟩, r, ?_, hok, h400⟩)
            simpa using h

/-- C4 counterexample: when the transport throws a value the catch block does
not classify (any error that is not a TypeError mentioning fetch — here an
Error "boom"; the same branch is reached when a 2xx JSON body fails to
parse), `request` rethrows a plain Error("Unexpected error: ..."), which is
neither a TransportFailure, nor a ResponseFailure, nor a ValidationFailure;
so as stated, over every transport behaviour, the claim fails. -/
theorem request_throws_generic_error_cex :
    (ApiService.request (fun _ => (FetchResult.otherFail ("boom") : FetchResult Nat))
        "/users/1" 3).result =
      Except.error (JsError.genericError ("Unexpected error: boom")) := rfl

/-- C4 (amended): over every tame transport — one that only ever throws
classified network TypeErrors and whose 2xx JSON bodies parse — every failure
of `request` is a NetworkError (TransportFailure) or an ApiError
(ResponseFailure), except that a ValidationFailure is raised exactly as the
passthrough of a response with status 400 (observed at the final attempt). -/
theorem request_failures_classified {α : Type} (t : Nat → FetchResult α) (ep : String)
    (retries : Nat) (htame : tameTransport t) :
    ∀ e, (ApiService.request t ep retries).result = Except.error e →
      ((∃ m ep2, e = JsError.networkError m ep2) ∨
       (∃ st tx m ep2, e = JsError.apiError st tx m ep2) ∨
       ((∃ m f, e = JsError.validationError m f) ∧
        ∃ r, t ((ApiService.request t ep retries).attempts - 1) = FetchResult.resp r ∧
          r.ok = false ∧ r.status = 400)) := by
  intro e herr
  have hc := requestLoop_classified t ep retries htame (retries + 1) 0 (by omega)
    (by omega) e herr
  simpa using hc

/-- Closed instance of `request_failures_classified`: a tame transport that
always answers 404 produces an ApiError, which the classification covers. -/
theorem request_failures_classified_witness :
    (∃ m ep2, JsError.apiError 404 ("Not Found") "Resource not found: /users/9" "/users/9" =
      JsError.networkError m ep2) ∨
    (∃ st tx m ep2, JsError.apiError 404 ("Not Found") "Resource not found: /users/9" "/users/9" =
      JsError.apiError st tx m ep2) ∨
    ((∃ m f, JsError.apiError 404 ("Not Found") "Resource not found: /users/9" "/users/9" =
        JsError.validationError m f) ∧
     ∃ r, (fun _ => FetchResult.resp
            (⟨false, 404, "Not Found", false, Except.error ("nb"), none⟩ : Response Nat))
          ((ApiService.request
              (fun _ => FetchResult.resp
                (⟨false, 404, "Not Found", false, Except.error ("nb"), none⟩ : Response Nat))
              "/users/9" 3).attempts - 1) = FetchResult.resp r ∧
        r.ok = false ∧ r.status = 400) :=
  request_failures_classified
    (fun _ => FetchResult.resp
      (⟨false, 404, "Not Found", false, Except.error ("nb"), none⟩ : Response Nat))
    "/users/9" 3
    (fun _ => ⟨fun m h => by simp at h,
      fun r hr hok _ => by
        injection hr with h2
        rw [← h2] at hok
        simp at hok⟩)
    (JsError.apiError 404 ("Not Found") "Resource not found: /users/9" "/users/9") rfl
